import Mathlib

set_option maxRecDepth 8000

/-
A shallow embedding of the chat backend (main.py together with the record
schemas of schemas.py): the five canned agent responders, the string-tag
router with its fallback to the general responder, and the conversation
service (create, get, send_message, list) over an association-list model
of the document store.  Timestamps are natural numbers, the store is
passed and returned explicitly, and HTTP failures are values of an
error type.
-/

inductive Role where
  | user
  | assistant
  | system
  deriving DecidableEq

/-- Message record of schemas.py: role, markdown content, optional agent
tag (set only on assistant messages) and optional creation timestamp. -/
structure Message where
  role : Role
  content : String
  agent : Option String
  created_at : Option Nat
  deriving DecidableEq

/-- Conversation record of schemas.py: title, default agent tag, ordered
message sequence and the two timestamps. -/
structure Conversation where
  title : String
  agent : String
  messages : List Message
  created_at : Nat
  updated_at : Nat
  deriving DecidableEq

/-- Modelled from the spec: the document store adapter (database.py is
not part of the sources; section 6 of the design gives its contract as
insert / find_one / find_many / update with generated opaque ids).  A
store is the ordered list of (id, document) pairs of the conversation
collection. -/
structure Store where
  docs : List (String × Conversation)
  deriving DecidableEq

inductive ApiError where
  | invalidId
  | notFound
  | validationError
  deriving DecidableEq

/-- The closed set of agent tags of the AgentType literal. -/
def isValidAgent (a : String) : Bool :=
  a == "general" || a == "code" || a == "automation" || a == "research" || a == "design"

def isHexChar (c : Char) : Bool :=
  "0123456789abcdefABCDEF".data.contains c

/-- A well-formed store id: bson ObjectId accepts exactly the 24-character
hexadecimal strings; anything else raises, which oid() maps to a 400. -/
def isValidObjectId (s : String) : Bool :=
  s.length == 24 && s.data.all isHexChar

/-- Python `s or dflt` on an optional string: None and "" are falsy. -/
def pyOrStr (s : Option String) (dflt : String) : String :=
  match s with
  | none => dflt
  | some t => if t = "" then dflt else t

def agent_general (prompt : String) : String :=
  "Here is a thoughtful answer to your question:\n\n" ++ prompt ++ "\n\n- I summarized the key points.\n- I provided actionable steps.\n\nIf you\x27d like more depth, ask for examples."

def agent_code (prompt : String) : String :=
  "I drafted a code example and an optimization tip:\n\n```python\n# Example function\nfrom typing import List\n\ndef unique_sorted(items: List[int]) -> List[int]:\n    # O(n log n) due to sort\n    return sorted(set(items))\n```\n\nOptimization: Prefer built-in data structures (set, dict) and avoid premature micro-opts."

def agent_automation (prompt : String) : String :=
  "Here\x27s a Selenium test outline you can adapt:\n\n```python\nfrom selenium import webdriver\nfrom selenium.webdriver.common.by import By\nfrom selenium.webdriver.common.keys import Keys\n\nwith webdriver.Chrome() as d:\n    d.get(\x27https://example.com\x27)\n    d.find_element(By.ID, \x27username\x27).send_keys(\x27user\x27)\n    d.find_element(By.ID, \x27password\x27).send_keys(\x27secret\x27)\n    d.find_element(By.CSS_SELECTOR, \x27button[type=submit]\x27).click()\n    assert \x27Dashboard\x27 in d.title\n```\n\nTip: Use data-testids for robust selectors."

def agent_research (prompt : String) : String :=
  "Plan → Gather → Synthesize → Answer\n\nPlan:\n- Define scope and criteria\n- Identify sources\n\nAnswer draft:\n- Key insights around: " ++ prompt ++ "\n- Trade-offs and alternatives\n- References to explore further"

def agent_design (prompt : String) : String :=
  "Design directions:\n\n- Visual: minimal, high-contrast, soft shadows\n- Components: cards, segmented controls, progress\n\nExample button style:\n\n```css\n.btn\x7bpadding:.75rem 1rem;border-radius:.75rem;background:linear-gradient(135deg,#6d5dfc,#3a8bff);color:#fff;font-weight:600;\x7d\n.btn:hover\x7bfilter:brightness(1.05)\x7d\n```"

/-- route_to_agent of main.py: four exact-match arms, everything else
falls through to the general responder. -/
def route_to_agent (agent : String) (prompt : String) : String :=
  if agent = "code" then agent_code prompt
  else if agent = "automation" then agent_automation prompt
  else if agent = "research" then agent_research prompt
  else if agent = "design" then agent_design prompt
  else agent_general prompt

/-- find_one on _id: the first document of the collection with this id. -/
def findDoc : List (String × Conversation) → String → Option Conversation
  | [], _ => none
  | (i, c) :: rest, id => if i = id then some c else findDoc rest id

/-- update_one on _id: rewrite the first document with this id. -/
def updateFirst : List (String × Conversation) → String → (Conversation → Conversation) → List (String × Conversation)
  | [], _, _ => []
  | (i, c) :: rest, id, f => if i = id then (i, f c) :: rest else (i, c) :: updateFirst rest id f

/-- The compound update of main.py: push the given messages onto the
matched document and set updated_at, together with the agent field when
one is supplied. -/
def push_and_set (s : Store) (id : String) (msgs : List Message) (t : Nat) (agentSet : Option String) : Store :=
  ⟨updateFirst s.docs id fun c =>
    { c with
      messages := c.messages ++ msgs,
      updated_at := t,
      agent := match agentSet with | some a => a | none => c.agent }⟩

/-- A NewConversationRequest after pydantic validation. -/
structure NewConversationPayload where
  title : Option String
  agent : String
  first_message : Option String
  deriving DecidableEq

/-- A raw new-conversation body before pydantic validation: every field
may be absent. -/
structure NewConversationRaw where
  title : Option String
  agent : Option String
  first_message : Option String
  deriving DecidableEq

/-- pydantic validation of NewConversationRequest: title and
first_message pass through, agent must be an AgentType literal and
defaults to "general" when absent. -/
def parseNewConversation (r : NewConversationRaw) : Except ApiError NewConversationPayload :=
  match r.agent with
  | none => Except.ok ⟨r.title, "general", r.first_message⟩
  | some a => if isValidAgent a then Except.ok ⟨r.title, a, r.first_message⟩ else Except.error ApiError.validationError

/-- A SendMessageRequest after pydantic validation: content plus the
optional agent override. -/
structure SendMessagePayload where
  content : String
  agent : Option String
  deriving DecidableEq

/-- Python `payload.agent or doc_agent`: None and "" fall back. -/
def pyOrAgent (a : Option String) (dflt : String) : String :=
  match a with
  | none => dflt
  | some s => if s = "" then dflt else s

/-- create_conversation of main.py.  newId is the id the store generates
for the insert; t0 is the clock at creation, t1 the clock at the seeding
update.  A truthy first_message (present and non-empty) triggers the
synchronous user/assistant pair append. -/
def create_conversation (payload : NewConversationPayload) (store : Store) (newId : String) (t0 t1 : Nat) : String × Store :=
  let conv : Conversation := ⟨pyOrStr payload.title "New Chat", payload.agent, [], t0, t0⟩
  let store1 : Store := ⟨(newId, conv) :: store.docs⟩
  match payload.first_message with
  | none => (newId, store1)
  | some fm =>
    if fm = "" then (newId, store1)
    else
      let user_msg : Message := ⟨Role.user, fm, none, none⟩
      let assistant_msg : Message := ⟨Role.assistant, route_to_agent payload.agent fm, some payload.agent, none⟩
      (newId, push_and_set store1 newId [user_msg, assistant_msg] t1 none)

/-- get_conversation of main.py: id well-formedness check, then lookup. -/
def get_conversation (conversation_id : String) (store : Store) : Except ApiError Conversation :=
  if isValidObjectId conversation_id then
    match findDoc store.docs conversation_id with
    | none => Except.error ApiError.notFound
    | some doc => Except.ok doc
  else Except.error ApiError.invalidId

/-- send_message of main.py: id check, lookup, agent resolution
(override or stored default), reply generation, then the compound
push-and-set that also overwrites the stored default agent.  The
pydantic Message constructor rejects an assistant tag outside the
closed set, which surfaces before any store write. -/
def send_message (conversation_id : String) (payload : SendMessagePayload) (store : Store) (t : Nat) : Except ApiError Message × Store :=
  if isValidObjectId conversation_id then
    match findDoc store.docs conversation_id with
    | none => (Except.error ApiError.notFound, store)
    | some doc =>
      let active_agent := pyOrAgent payload.agent doc.agent
      let user_msg : Message := ⟨Role.user, payload.content, none, none⟩
      let assistant_msg : Message := ⟨Role.assistant, route_to_agent active_agent payload.content, some active_agent, none⟩
      if isValidAgent active_agent then
        (Except.ok assistant_msg, push_and_set store conversation_id [user_msg, assistant_msg] t (some active_agent))
      else (Except.error ApiError.validationError, store)
  else (Except.error ApiError.invalidId, store)

/-- A list_conversations item: the document without its message bodies
(the projection drops the messages field). -/
structure ConversationSummary where
  id : String
  title : String
  agent : String
  created_at : Nat
  updated_at : Nat
  deriving DecidableEq

def summaryOf (id : String) (c : Conversation) : ConversationSummary :=
  ⟨id, c.title, c.agent, c.created_at, c.updated_at⟩

/-- Sort key of list_conversations: updated_at descending. -/
def updatedDesc (a b : String × Conversation) : Prop :=
  b.2.updated_at ≤ a.2.updated_at

instance : DecidableRel updatedDesc :=
  fun a b => Nat.decLe b.2.updated_at a.2.updated_at

instance : IsTotal (String × Conversation) updatedDesc :=
  ⟨fun a b => Nat.le_total b.2.updated_at a.2.updated_at⟩

instance : IsTrans (String × Conversation) updatedDesc :=
  ⟨fun _ _ _ hab hbc => Nat.le_trans hbc hab⟩

/-- list_conversations of main.py: sort by updated_at descending, limit
50, project the messages away. -/
def list_conversations (store : Store) : List ConversationSummary :=
  ((List.insertionSort updatedDesc store.docs).take 50).map fun p => summaryOf p.1 p.2

theorem findDoc_updateFirst (docs : List (String × Conversation)) (id : String)
    (f : Conversation → Conversation) (doc : Conversation)
    (h : findDoc docs id = some doc) :
    findDoc (updateFirst docs id f) id = some (f doc) := by
  induction docs with
  | nil => simp [findDoc] at h
  | cons hd tl ih =>
    obtain ⟨i, c⟩ := hd
    by_cases hi : i = id
    · subst hi
      simp [findDoc, updateFirst] at h ⊢
      exact congrArg f h
    · simp [findDoc, updateFirst, hi] at h ⊢
      exact ih h

theorem str3_ne_empty (l m r : String) (h : 0 < l.length) : l ++ m ++ r ≠ "" := by
  intro he
  have h1 := congrArg String.length he
  rw [String.length_append, String.length_append] at h1
  have h0 : String.length "" = 0 := rfl
  rw [h0] at h1
  omega

/-- C1: the router dispatches exactly: each of the four specialised tags
reaches its own responder byte-for-byte, and any other tag (the literal
"general", the empty string, or an unrecognized string) reaches the
general responder. -/
theorem route_dispatch_exact (a p : String) :
    route_to_agent "code" p = agent_code p ∧
    route_to_agent "automation" p = agent_automation p ∧
    route_to_agent "research" p = agent_research p ∧
    route_to_agent "design" p = agent_design p ∧
    (a ≠ "code" → a ≠ "automation" → a ≠ "research" → a ≠ "design" →
      route_to_agent a p = agent_general p) := by
  refine ⟨rfl, rfl, rfl, rfl, ?_⟩
  intro h1 h2 h3 h4
  simp only [route_to_agent, if_neg h1, if_neg h2, if_neg h3, if_neg h4]

theorem route_dispatch_exact_witness :
    route_to_agent "general" "hi" = agent_general "hi" ∧
    route_to_agent "" "hi" = agent_general "hi" :=
  ⟨(route_dispatch_exact "general" "hi").2.2.2.2 (by decide) (by decide) (by decide) (by decide),
   (route_dispatch_exact "" "hi").2.2.2.2 (by decide) (by decide) (by decide) (by decide)⟩

theorem agent_code_const (p q : String) : agent_code p = agent_code q := rfl

theorem agent_automation_const (p q : String) : agent_automation p = agent_automation q := rfl

theorem agent_design_const (p q : String) : agent_design p = agent_design q := rfl

/-- C2: every responder returns non-empty text and is deterministic;
the general and research responders contain the literal prompt as a
substring; the code, automation and design responders do not depend on
the prompt at all. -/
theorem responders_contract (p q : String) :
    agent_general p ≠ "" ∧ agent_code p ≠ "" ∧ agent_automation p ≠ "" ∧
    agent_research p ≠ "" ∧ agent_design p ≠ "" ∧
    agent_general p = agent_general p ∧ agent_code p = agent_code p ∧
    agent_automation p = agent_automation p ∧ agent_research p = agent_research p ∧
    agent_design p = agent_design p ∧
    (∃ l r, agent_general p = l ++ p ++ r) ∧
    (∃ l r, agent_research p = l ++ p ++ r) ∧
    agent_code p = agent_code q ∧ agent_automation p = agent_automation q ∧
    agent_design p = agent_design q := by
  have hc : agent_code p ≠ "" := by
    rw [agent_code_const p ""]
    decide
  have ha : agent_automation p ≠ "" := by
    rw [agent_automation_const p ""]
    decide
  have hd : agent_design p ≠ "" := by
    rw [agent_design_const p ""]
    decide
  refine ⟨?_, hc, ha, ?_, hd,
          rfl, rfl, rfl, rfl, rfl, ⟨_, _, rfl⟩, ⟨_, _, rfl⟩, rfl, rfl, rfl⟩
  · exact str3_ne_empty _ p _ (by decide)
  · exact str3_ne_empty _ p _ (by decide)

/-- C3: on an existing conversation, send_message resolves the active
agent as the override when provided (else the stored default), returns
the assistant message generated by the router for that agent, and
persists the user/assistant pair in order while setting updated_at to
the call time and overwriting the stored default agent with the active
agent. -/
theorem send_message_appends_and_persists (id : String) (payload : SendMessagePayload)
    (store : Store) (t : Nat) (doc : Conversation)
    (hid : isValidObjectId id = true)
    (hdoc : findDoc store.docs id = some doc)
    (hvalid : isValidAgent (pyOrAgent payload.agent doc.agent) = true) :
    (∀ a, payload.agent = some a → isValidAgent a = true →
      pyOrAgent payload.agent doc.agent = a) ∧
    (payload.agent = none → pyOrAgent payload.agent doc.agent = doc.agent) ∧
    (send_message id payload store t).1 =
      Except.ok ⟨Role.assistant,
                 route_to_agent (pyOrAgent payload.agent doc.agent) payload.content,
                 some (pyOrAgent payload.agent doc.agent), none⟩ ∧
    findDoc (send_message id payload store t).2.docs id =
      some { doc with
             messages := doc.messages ++
               [⟨Role.user, payload.content, none, none⟩,
                ⟨Role.assistant,
                 route_to_agent (pyOrAgent payload.agent doc.agent) payload.content,
                 some (pyOrAgent payload.agent doc.agent), none⟩],
             updated_at := t,
             agent := pyOrAgent payload.agent doc.agent } := by
  refine ⟨?_, ?_, ?_, ?_⟩
  · intro a hsome hvalida
    rw [hsome]
    simp only [pyOrAgent]
    by_cases hempty : a = ""
    · subst hempty
      exact absurd hvalida (by decide)
    · simp [hempty]
  · intro hnone
    simp [pyOrAgent, hnone]
  · simp [send_message, hid, hdoc, hvalid]
  · simp only [send_message, hid, hdoc, hvalid]
    simp only [if_true]
    simpa [push_and_set] using findDoc_updateFirst store.docs id _ doc hdoc

theorem send_message_appends_witness :
    (send_message "0123456789abcdef01234567" ⟨"hello", some "design"⟩
        ⟨[("0123456789abcdef01234567", ⟨"T", "general", [], 0, 0⟩)]⟩ 5).1 =
      Except.ok ⟨Role.assistant,
                 route_to_agent (pyOrAgent (some "design") "general") "hello",
                 some (pyOrAgent (some "design") "general"), none⟩ :=
  (send_message_appends_and_persists "0123456789abcdef01234567" ⟨"hello", some "design"⟩
      ⟨[("0123456789abcdef01234567", ⟨"T", "general", [], 0, 0⟩)]⟩ 5 ⟨"T", "general", [], 0, 0⟩
      (by decide) (by decide) (by decide)).2.2.1

/-- C4: send_message on a well-formed id with no matching record fails
with NotFound and returns the store unchanged: nothing is inserted or
updated and every existing conversation is untouched. -/
theorem send_message_not_found (id : String) (payload : SendMessagePayload)
    (store : Store) (t : Nat)
    (hid : isValidObjectId id = true)
    (hnone : findDoc store.docs id = none) :
    send_message id payload store t = (Except.error ApiError.notFound, store) := by
  simp [send_message, hid, hnone]

theorem send_message_not_found_witness :
    send_message "0123456789abcdef01234567" ⟨"x", none⟩ ⟨[]⟩ 0 =
      (Except.error ApiError.notFound, (⟨[]⟩ : Store)) :=
  send_message_not_found _ _ _ _ (by decide) (by decide)

/-- C8: an id that is not a well-formed store id is rejected as
InvalidIdentifier by both get_conversation and send_message before any
store access: send_message returns the store unchanged. -/
theorem invalid_id_rejected (id : String) (payload : SendMessagePayload)
    (store : Store) (t : Nat)
    (hid : isValidObjectId id = false) :
    get_conversation id store = Except.error ApiError.invalidId ∧
    send_message id payload store t = (Except.error ApiError.invalidId, store) := by
  constructor <;> simp [get_conversation, send_message, hid]

theorem invalid_id_rejected_witness :
    get_conversation "nope" ⟨[]⟩ = Except.error ApiError.invalidId ∧
    send_message "nope" ⟨"x", none⟩ ⟨[]⟩ 0 = (Except.error ApiError.invalidId, (⟨[]⟩ : Store)) :=
  invalid_id_rejected "nope" ⟨"x", none⟩ ⟨[]⟩ 0 (by decide)

theorem create_found (req : NewConversationPayload) (store : Store) (newId : String) (t0 t1 : Nat) :
    ∃ conv, findDoc (create_conversation req store newId t0 t1).2.docs newId = some conv ∧
      conv.title = pyOrStr req.title "New Chat" ∧ conv.agent = req.agent ∧
      conv.created_at = t0 ∧
      (req.first_message = none → conv.messages = [] ∧ conv.updated_at = t0) := by
  obtain ⟨rt, ra, rf⟩ := req
  cases rf with
  | none =>
    refine ⟨⟨pyOrStr rt "New Chat", ra, [], t0, t0⟩, ?_, rfl, rfl, rfl, fun _ => ⟨rfl, rfl⟩⟩
    simp [create_conversation, findDoc]
  | some fm =>
    by_cases hfm : fm = ""
    · subst hfm
      refine ⟨⟨pyOrStr rt "New Chat", ra, [], t0, t0⟩, ?_, rfl, rfl, rfl, by simp⟩
      simp [create_conversation, findDoc]
    · refine ⟨⟨pyOrStr rt "New Chat", ra,
        [⟨Role.user, fm, none, none⟩, ⟨Role.assistant, route_to_agent ra fm, some ra, none⟩],
        t0, t1⟩, ?_, rfl, rfl, rfl, by simp⟩
      simp [create_conversation, push_and_set, updateFirst, findDoc, hfm]

/-- C5: a created conversation carries the given title, defaulting to
"New Chat" when the title is absent or empty; the agent defaults to
"general" when absent from the request; and with no first_message the
conversation starts with an empty message sequence and created_at equal
to updated_at. -/
theorem create_conversation_defaults (raw : NewConversationRaw) (req : NewConversationPayload)
    (store : Store) (newId : String) (t0 t1 : Nat)
    (hparse : parseNewConversation raw = Except.ok req) :
    ∃ conv, findDoc (create_conversation req store newId t0 t1).2.docs newId = some conv ∧
      (∀ s, raw.title = some s → s ≠ "" → conv.title = s) ∧
      ((raw.title = none ∨ raw.title = some "") → conv.title = "New Chat") ∧
      (raw.agent = none → conv.agent = "general") ∧
      (raw.first_message = none →
        conv.messages = [] ∧ conv.created_at = t0 ∧ conv.updated_at = t0) := by
  have hfields : req.title = raw.title ∧ (raw.agent = none → req.agent = "general") ∧
      req.first_message = raw.first_message := by
    obtain ⟨rt, ra, rf⟩ := raw
    cases ra with
    | none =>
      simp only [parseNewConversation, Except.ok.injEq] at hparse
      subst hparse
      exact ⟨rfl, fun _ => rfl, rfl⟩
    | some a =>
      by_cases hva : isValidAgent a
      · simp only [parseNewConversation, hva, if_true, Except.ok.injEq] at hparse
        subst hparse
        exact ⟨rfl, by simp, rfl⟩
      · simp [parseNewConversation, hva] at hparse
  obtain ⟨ht, hag, hfm⟩ := hfields
  obtain ⟨conv, hfind, htitle, hagent, hcreated, hmsgs⟩ := create_found req store newId t0 t1
  refine ⟨conv, hfind, ?_, ?_, ?_, ?_⟩
  · intro s hs hne
    rw [htitle, ht, hs]
    simp [pyOrStr, hne]
  · intro hcase
    rw [htitle, ht]
    rcases hcase with h | h <;> rw [h] <;> simp [pyOrStr]
  · intro h
    rw [hagent]
    exact hag h
  · intro h
    have hm := hmsgs (by rw [hfm, h])
    exact ⟨hm.1, hcreated, hm.2⟩

theorem create_conversation_defaults_witness :
    ∃ conv, findDoc (create_conversation ⟨none, "general", none⟩ ⟨[]⟩
        "0123456789abcdef01234569" 0 0).2.docs "0123456789abcdef01234569" = some conv ∧
      (∀ s, (none : Option String) = some s → s ≠ "" → conv.title = s) ∧
      (((none : Option String) = none ∨ (none : Option String) = some "") →
        conv.title = "New Chat") ∧
      ((none : Option String) = none → conv.agent = "general") ∧
      ((none : Option String) = none →
        conv.messages = [] ∧ conv.created_at = 0 ∧ conv.updated_at = 0) :=
  create_conversation_defaults ⟨none, none, none⟩ ⟨none, "general", none⟩ ⟨[]⟩
    "0123456789abcdef01234569" 0 0 rfl

/-- C6: a create call with a (non-empty) first_message seeds the
conversation with exactly two messages, the user message with that
content followed by the assistant message tagged with the resolved agent
and carrying the router's reply, and updated_at is refreshed to the
seeding time. -/
theorem create_conversation_seeded (req : NewConversationPayload) (store : Store)
    (newId : String) (t0 t1 : Nat) (fm : String)
    (hfm : req.first_message = some fm) (hne : fm ≠ "") :
    ∃ conv, findDoc (create_conversation req store newId t0 t1).2.docs newId = some conv ∧
      conv.messages =
        [⟨Role.user, fm, none, none⟩,
         ⟨Role.assistant, route_to_agent req.agent fm, some req.agent, none⟩] ∧
      conv.updated_at = t1 := by
  obtain ⟨rt, ra, rf⟩ := req
  have hfm' : rf = some fm := hfm
  subst hfm'
  refine ⟨⟨pyOrStr rt "New Chat", ra,
    [⟨Role.user, fm, none, none⟩, ⟨Role.assistant, route_to_agent ra fm, some ra, none⟩],
    t0, t1⟩, ?_, rfl, rfl⟩
  simp [create_conversation, push_and_set, updateFirst, findDoc, hne]

theorem create_conversation_seeded_witness :
    ∃ conv, findDoc (create_conversation ⟨none, "code", some "fix this"⟩ ⟨[]⟩
        "0123456789abcdef01234568" 0 1).2.docs "0123456789abcdef01234568" = some conv ∧
      conv.messages =
        [⟨Role.user, "fix this", none, none⟩,
         ⟨Role.assistant, route_to_agent "code" "fix this", some "code", none⟩] ∧
      conv.updated_at = 1 :=
  create_conversation_seeded ⟨none, "code", some "fix this"⟩ ⟨[]⟩
    "0123456789abcdef01234568" 0 1 "fix this" rfl (by decide)

/-- C10: a create call whose first_message is the empty string skips the
seeding branch entirely: the store gains only the bare conversation and
its message sequence is empty. -/
theorem create_empty_first_message_skips (title : Option String) (ag : String)
    (store : Store) (newId : String) (t0 t1 : Nat) :
    (create_conversation ⟨title, ag, some ""⟩ store newId t0 t1).2 =
      ⟨(newId, ⟨pyOrStr title "New Chat", ag, [], t0, t0⟩) :: store.docs⟩ ∧
    ∃ conv, findDoc (create_conversation ⟨title, ag, some ""⟩ store newId t0 t1).2.docs
        newId = some conv ∧ conv.messages = [] := by
  constructor
  · simp [create_conversation]
  · refine ⟨⟨pyOrStr title "New Chat", ag, [], t0, t0⟩, ?_, rfl⟩
    simp [create_conversation, findDoc]

/-- C7: list_conversations returns at most 50 summaries, sorted by
updated_at descending, and every returned item is the metadata-only
projection (no message bodies) of a stored conversation. -/
theorem list_conversations_spec (store : Store) :
    (list_conversations store).length ≤ 50 ∧
    List.Sorted (fun a b : ConversationSummary => b.updated_at ≤ a.updated_at)
      (list_conversations store) ∧
    ∀ s ∈ list_conversations store, ∃ id c, (id, c) ∈ store.docs ∧ s = summaryOf id c := by
  refine ⟨?_, ?_, ?_⟩
  · simp only [list_conversations, List.length_map, List.length_take]
    exact Nat.min_le_left _ _
  · have hs : List.Sorted updatedDesc (List.insertionSort updatedDesc store.docs) :=
      List.sorted_insertionSort updatedDesc store.docs
    have htake : List.Pairwise updatedDesc ((List.insertionSort updatedDesc store.docs).take 50) :=
      hs.sublist (List.take_sublist 50 _)
    simp only [list_conversations]
    exact List.pairwise_map.mpr (htake.imp fun h => h)
  · intro s hs
    simp only [list_conversations, List.mem_map] at hs
    obtain ⟨p, hp, hps⟩ := hs
    have hp2 : p ∈ List.insertionSort updatedDesc store.docs := List.mem_of_mem_take hp
    have hp3 : p ∈ store.docs := (List.perm_insertionSort updatedDesc store.docs).mem_iff.mp hp2
    exact ⟨p.1, p.2, hp3, hps.symm⟩

theorem list_conversations_spec_witness :
    ∃ id c,
      (id, c) ∈ (⟨[("0123456789abcdef0123456a", ⟨"T", "general", [], 0, 3⟩)]⟩ : Store).docs ∧
      summaryOf "0123456789abcdef0123456a" ⟨"T", "general", [], 0, 3⟩ = summaryOf id c :=
  (list_conversations_spec ⟨[("0123456789abcdef0123456a", ⟨"T", "general", [], 0, 3⟩)]⟩).2.2
    (summaryOf "0123456789abcdef0123456a" ⟨"T", "general", [], 0, 3⟩) (by decide)

/-- pydantic validity of an assistant tag: present and in the closed set. -/
def msgTagOk (m : Message) : Bool :=
  match m.agent with
  | some a => isValidAgent a
  | none => false

/-- The conversation invariant: updated_at is at least created_at and
every assistant message carries a closed-set agent tag. -/
def ConvWf (c : Conversation) : Prop :=
  c.created_at ≤ c.updated_at ∧
  ∀ m ∈ c.messages, m.role = Role.assistant → msgTagOk m = true

theorem send_message_store_cases (id : String) (payload : SendMessagePayload)
    (store : Store) (t : Nat) :
    (send_message id payload store t).2 = store ∨
    ∃ doc, findDoc store.docs id = some doc ∧
      isValidAgent (pyOrAgent payload.agent doc.agent) = true ∧
      (send_message id payload store t).2 =
        push_and_set store id
          [⟨Role.user, payload.content, none, none⟩,
           ⟨Role.assistant, route_to_agent (pyOrAgent payload.agent doc.agent) payload.content,
            some (pyOrAgent payload.agent doc.agent), none⟩] t
          (some (pyOrAgent payload.agent doc.agent)) := by
  by_cases hid : isValidObjectId id
  · cases hdoc : findDoc store.docs id with
    | none => exact Or.inl (by simp [send_message, hid, hdoc])
    | some doc =>
      by_cases hva : isValidAgent (pyOrAgent payload.agent doc.agent)
      · exact Or.inr ⟨doc, rfl, hva, by simp [send_message, hid, hdoc, hva]⟩
      · exact Or.inl (by simp [send_message, hid, hdoc, hva])
  · exact Or.inl (by simp [send_message, hid])

/-- C9: both mutating operations preserve the conversation invariant:
updated_at stays at least created_at, the message sequence of an
existing conversation only grows by appending (never shrinks or
reorders), and every assistant message carries a closed-set agent tag. -/
theorem operations_preserve_invariant :
    (∀ (req : NewConversationPayload) (store : Store) (newId : String) (t0 t1 : Nat),
      t0 ≤ t1 → isValidAgent req.agent = true →
      ∀ conv, findDoc (create_conversation req store newId t0 t1).2.docs newId = some conv →
        ConvWf conv) ∧
    (∀ (id : String) (payload : SendMessagePayload) (store : Store) (t : Nat)
      (doc : Conversation),
      findDoc store.docs id = some doc → ConvWf doc → doc.updated_at ≤ t →
      ∀ conv, findDoc (send_message id payload store t).2.docs id = some conv →
        ConvWf conv ∧ ∃ added, conv.messages = doc.messages ++ added) := by
  constructor
  · intro req store newId t0 t1 h01 hva conv hconv
    obtain ⟨rt, ra, rf⟩ := req
    cases rf with
    | none =>
      simp [create_conversation, findDoc] at hconv
      subst hconv
      exact ⟨Nat.le_refl _, by simp⟩
    | some fm =>
      by_cases hfm : fm = ""
      · subst hfm
        simp [create_conversation, findDoc] at hconv
        subst hconv
        exact ⟨Nat.le_refl _, by simp⟩
      · simp [create_conversation, push_and_set, updateFirst, findDoc, hfm] at hconv
        subst hconv
        constructor
        · exact h01
        · intro m hm hrole
          simp at hm
          rcases hm with hu | ha2
          · subst hu
            exact Role.noConfusion hrole
          · subst ha2
            simp only [msgTagOk]
            exact hva
  · intro id payload store t doc hdoc hwf ht conv hconv
    rcases send_message_store_cases id payload store t with hsame | ⟨doc2, hdoc2, hva, hpush⟩
    · rw [hsame, hdoc] at hconv
      injection hconv with hcv
      subst hcv
      exact ⟨hwf, ⟨[], by simp⟩⟩
    · rw [hdoc] at hdoc2
      injection hdoc2 with hdd
      subst hdd
      rw [hpush] at hconv
      have hupd := findDoc_updateFirst store.docs id
        (fun c => { c with
          messages := c.messages ++
            [⟨Role.user, payload.content, none, none⟩,
             ⟨Role.assistant, route_to_agent (pyOrAgent payload.agent doc.agent) payload.content,
              some (pyOrAgent payload.agent doc.agent), none⟩],
          updated_at := t,
          agent := pyOrAgent payload.agent doc.agent }) doc hdoc
      rw [show (push_and_set store id
          [⟨Role.user, payload.content, none, none⟩,
           ⟨Role.assistant, route_to_agent (pyOrAgent payload.agent doc.agent) payload.content,
            some (pyOrAgent payload.agent doc.agent), none⟩] t
          (some (pyOrAgent payload.agent doc.agent))).docs =
        updateFirst store.docs id
          (fun c => { c with
            messages := c.messages ++
              [⟨Role.user, payload.content, none, none⟩,
               ⟨Role.assistant, route_to_agent (pyOrAgent payload.agent doc.agent) payload.content,
                some (pyOrAgent payload.agent doc.agent), none⟩],
            updated_at := t,
            agent := pyOrAgent payload.agent doc.agent }) from rfl] at hconv
      rw [hupd] at hconv
      injection hconv with hcv
      subst hcv
      refine ⟨⟨Nat.le_trans hwf.1 ht, ?_⟩, ⟨_, rfl⟩⟩
      intro m hm hrole
      rcases List.mem_append.mp hm with hold | hnew
      · exact hwf.2 m hold hrole
      · simp at hnew
        rcases hnew with hu | ha2
        · subst hu
          exact Role.noConfusion hrole
        · subst ha2
          simp only [msgTagOk]
          exact hva

theorem operations_preserve_invariant_witness :
    ConvWf ⟨"T", "general",
      [⟨Role.user, "hi", none, none⟩,
       ⟨Role.assistant, route_to_agent "general" "hi", some "general", none⟩], 0, 1⟩ ∧
    ∃ added,
      (⟨"T", "general",
        [⟨Role.user, "hi", none, none⟩,
         ⟨Role.assistant, route_to_agent "general" "hi", some "general", none⟩],
        0, 1⟩ : Conversation).messages =
      (⟨"T", "general", [], 0, 0⟩ : Conversation).messages ++ added :=
  operations_preserve_invariant.2 "0123456789abcdef0123456b" ⟨"hi", none⟩
    ⟨[("0123456789abcdef0123456b", ⟨"T", "general", [], 0, 0⟩)]⟩ 1 ⟨"T", "general", [], 0, 0⟩
    (by decide) ⟨by decide, by decide⟩ (by decide)
    ⟨"T", "general",
      [⟨Role.user, "hi", none, none⟩,
       ⟨Role.assistant, route_to_agent "general" "hi", some "general", none⟩], 0, 1⟩
    (by decide)
